import Mathlib

/-!
Shallow embedding of the European Urology manuscript-compliance checker
(`indexer.py`, `agent_graph.py`).  Pure Python functions become Lean
functions; the LangGraph state-merge semantics (list channels append,
scalar channels overwrite) is an explicit `applyUpdate`; the opaque
external collaborators (the Azure chat backend, the embedding similarity
scorer, the text splitter) are parameters.
-/

namespace EuroUrol

/-- Python substring test `pat in s`, over the string's code points. -/
def strContains (s pat : String) : Bool :=
  decide (pat.data <:+: s.data)

/-- Python `str.lower()`: lowercase each code point. -/
def strToLower (s : String) : String :=
  ⟨s.data.map Char.toLower⟩

/-- Python `str.strip()`: drop leading and trailing whitespace. -/
def strStrip (s : String) : String :=
  ⟨((s.data.dropWhile Char.isWhitespace).reverse.dropWhile Char.isWhitespace).reverse⟩

/-- Python `s[:n]`: the first `n` code points of `s`. -/
def strTake (s : String) (n : Nat) : String :=
  ⟨s.data.take n⟩

/-- A LangChain `Document`: page content plus the metadata the indexer
attaches (`source_doc`, `guideline_type`). -/
structure Document where
  page_content : String
  source_doc : String
  guideline_type : String
deriving DecidableEq, Repr

/-- `indexer.infer_guideline_type`: map a guideline filename to a
high-level type by lowercased substring tests, in source order. -/
def infer_guideline_type (filename : String) : String :=
  let fn := strToLower filename
  if strContains fn "causality" then "causality"
  else if strContains fn "figure" || strContains fn "table" then "figures_tables"
  else if strContains fn "systematic" || strContains fn "meta" then "systematic_meta"
  else if strContains fn "stat" then "statistics"
  else "other"

/-- `indexer._split_docs`: each document is cut into chunks by the
(external) `RecursiveCharacterTextSplitter`, here the opaque parameter
`splitText`; LangChain's `split_documents` copies the parent document's
metadata onto every chunk. -/
def split_docs (splitText : String → List String) (docs : List Document) : List Document :=
  (docs.map (fun d => (splitText d.page_content).map
    (fun c => { d with page_content := c }))).flatten

/-- The in-memory vector store's retriever with `search_kwargs = k`:
the `k` chunks most similar to the query under the opaque embedding
similarity score `sim` (ranking and tie-breaks delegated to it). -/
def topK (sim : String → Document → Nat) (query : String) (k : Nat)
    (chunks : List Document) : List Document :=
  (chunks.mergeSort (fun a b => Nat.ble (sim query b) (sim query a))).take k

/-- The `RuntimeError` message raised for an empty filtered corpus. -/
def noDocsMsg (guideline_type : String) : String :=
  "No documents found for guideline_type=\x27" ++ guideline_type ++ "\x27. " ++
  "Check that filenames contain e.g. \x27Stat\x27, \x27Causality\x27, " ++
  "\x27Figures and Tables\x27, \x27Systematic review\x27."

/-- `indexer.retrieve_guidelines_by_type`: filter the loaded corpus to
the requested guideline type, fail (`RuntimeError`) when that filtered
corpus is empty, otherwise chunk it and return the top-k chunks.
Exceptions become `Except.error`. -/
def retrieve_guidelines_by_type (splitText : String → List String)
    (sim : String → Document → Nat) (all_docs : List Document)
    (guideline_type : String) (query : String) (k : Nat) :
    Except String (List Document) :=
  let typed_docs := all_docs.filter (fun d => d.guideline_type == guideline_type)
  if typed_docs.isEmpty then
    .error (noDocsMsg guideline_type)
  else
    .ok (topK sim query k (split_docs splitText typed_docs))

/-- `AgentState` (a `TypedDict`): `paper_type`/`final_report` use
`Option` so that an absent key (or Python `None`) is `none`. -/
structure AgentState where
  paper_content : String
  paper_type : Option String
  audit_logs : List String
  final_report : Option String
deriving DecidableEq, Repr

/-- A node's partial state update. A `none` scalar means the node did
not return that key. -/
structure StateUpdate where
  paper_type : Option String := none
  audit_logs : List String := []
  final_report : Option String := none
deriving DecidableEq, Repr

/-- LangGraph merge of a partial update into the state: the
`audit_logs` channel is annotated with `operator.add` so lists append;
the scalar channels overwrite when the update carries them. -/
def applyUpdate (s : AgentState) (u : StateUpdate) : AgentState :=
  { paper_content := s.paper_content
    paper_type := match u.paper_type with
      | some v => some v
      | none => s.paper_type
    audit_logs := s.audit_logs ++ u.audit_logs
    final_report := match u.final_report with
      | some v => some v
      | none => s.final_report }

/-- The opaque Azure chat backend: one response function per prompt
template of `agent_graph.py`, applied to that template's variables.
`(prompt | llm).invoke args` becomes the matching field at `args`. -/
structure LLMBackend where
  classifyResp : String → String
  statsResp : String → String → String
  figtabResp : String → String → String
  causalityResp : String → String → String
  srmaResp : String → String → String → String
  reportResp : String → String → String

/-- The retrieval helper as seen from `agent_graph.py`:
`retrieve_guidelines_by_type(type, query, k)`, raising modelled as
`Except.error`. -/
def Retriever : Type :=
  String → String → Nat → Except String (List Document)

/-- `"\n\n".join(d.page_content for d in guideline_docs)`. -/
def joinRules (docs : List Document) : String :=
  String.intercalate "\n\n" (docs.map (fun d => d.page_content))

/-- `classifier_node`: with no backend, mark the type `Unknown`;
otherwise classify the first 4000 characters and store the stripped
response verbatim as `paper_type`. -/
def classifier_node (llm : Option LLMBackend) (state : AgentState) : StateUpdate :=
  match llm with
  | none => { paper_type := some "Unknown", audit_logs := ["LLM not initialized."] }
  | some o =>
    let content_snippet := strTake state.paper_content 4000
    let category := strStrip (o.classifyResp content_snippet)
    { paper_type := some category
      audit_logs := ["**Paper classified as:** " ++ category] }

/-- The fixed query phrase of the statistics stage. -/
def statsQuery : String :=
  "p-values, confidence intervals, precision, effect sizes, primary endpoint, sample size"

/-- `stats_auditor_node`: retrieve statistics guidelines (degrading to a
diagnostic finding on failure) and check the full manuscript text. -/
def stats_auditor_node (retrieve : Retriever) (llm : Option LLMBackend)
    (state : AgentState) : StateUpdate :=
  match llm with
  | none => { audit_logs := ["*Error: LLM not initialized.*"] }
  | some o =>
    match retrieve "statistics" statsQuery 5 with
    | .error e =>
      { audit_logs :=
          ["### Statistical Reporting Check\nCould not load statistics guidelines: " ++ e] }
    | .ok guideline_docs =>
      let rules := joinRules guideline_docs
      let paper_snip := state.paper_content
      { audit_logs := [o.statsResp rules paper_snip] }

/-- The fixed query phrase of the figures/tables stage. -/
def figtabQuery : String :=
  "figures tables graphs dos and don\x27ts precision labels legends Kaplan-Meier tables example"

/-- `figtab_auditor_node`: retrieve figures/tables guidelines (degrading
to a diagnostic finding on failure) and check the full manuscript text. -/
def figtab_auditor_node (retrieve : Retriever) (llm : Option LLMBackend)
    (state : AgentState) : StateUpdate :=
  match llm with
  | none => { audit_logs := ["*Error: LLM not initialized.*"] }
  | some o =>
    match retrieve "figures_tables" figtabQuery 5 with
    | .error e =>
      { audit_logs :=
          ["### Figures and Tables Check\nCould not load figures/tables guidelines: " ++ e] }
    | .ok guideline_docs =>
      let rules := joinRules guideline_docs
      let paper_snip := state.paper_content
      { audit_logs := [o.figtabResp rules paper_snip] }

/-- The fixed query phrase of the causality branch. -/
def causalityQuery : String :=
  "causal language, confounding, causal pathways, introduction, methods, discussion"

/-- The fixed query phrase of the systematic-review/meta-analysis branch. -/
def srmaQuery : String :=
  "PRISMA MOOSE heterogeneity SUCRA protocol reproducible methods justification for review"

/-- The neutral finding appended when no type-specific check applies. -/
def neutralFinding : String :=
  "### Type-Specific Check\nStudy type does not trigger additional causality or SR/MA checks " ++
  "beyond general statistics and figures/tables."

/-- `type_specific_auditor_node`: route on the lowercased
`state.get("paper_type") or ""` by substring tests — observational to
the causality check, systematic review / meta-analysis (hyphenated or
not) to the SR/MA check, all other types to the neutral finding. -/
def type_specific_auditor_node (retrieve : Retriever) (llm : Option LLMBackend)
    (state : AgentState) : StateUpdate :=
  match llm with
  | none => { audit_logs := ["*Error: LLM not initialized.*"] }
  | some o =>
    let paper_type := strToLower (state.paper_type.getD "")
    let paper_snip := state.paper_content
    if strContains paper_type "observational" then
      match retrieve "causality" causalityQuery 5 with
      | .error e =>
        { audit_logs :=
            ["### Causality / Observational Study Check\nCould not load causality guidelines: " ++ e] }
      | .ok guideline_docs =>
        let rules := joinRules guideline_docs
        { audit_logs := [o.causalityResp rules paper_snip] }
    else if strContains paper_type "systematic review" ||
        strContains paper_type "meta-analysis" ||
        strContains paper_type "meta analysis" then
      match retrieve "systematic_meta" srmaQuery 5 with
      | .error e =>
        { audit_logs :=
            ["### Systematic Review / Meta-analysis Check\nCould not load SR/MA guidelines: " ++ e] }
      | .ok guideline_docs =>
        let rules := joinRules guideline_docs
        { audit_logs := [o.srmaResp rules paper_snip (state.paper_type.getD "")] }
    else
      { audit_logs := [neutralFinding] }

/-- `reporter_node`: with no backend, assemble the fallback report from
the detected type and the raw logs; otherwise the final report is the
synthesis backend's response on (paper type, joined logs). -/
def reporter_node (llm : Option LLMBackend) (state : AgentState) : StateUpdate :=
  match llm with
  | none =>
    let logs_text := String.intercalate "\n\n" state.audit_logs
    let fallback :=
      "🇪🇺 European Urology Statistical Report\n" ++
      ("Detected Type: " ++ state.paper_type.getD "Unknown" ++ "\n\n") ++
      "LLM not initialized – showing raw logs:\n\n" ++
      logs_text
    { final_report := some fallback }
  | some o =>
    let logs_text := String.intercalate "\n\n---\n\n" state.audit_logs
    { final_report := some (o.reportResp (state.paper_type.getD "Unknown") logs_text) }

/-- The compiled workflow: classify → check_stats → check_type_specific
→ check_figtab → report, each node's partial update merged into the
state before the next node runs. -/
def runPipeline (retrieve : Retriever) (llm : Option LLMBackend)
    (s0 : AgentState) : AgentState :=
  let s1 := applyUpdate s0 (classifier_node llm s0)
  let s2 := applyUpdate s1 (stats_auditor_node retrieve llm s1)
  let s3 := applyUpdate s2 (type_specific_auditor_node retrieve llm s2)
  let s4 := applyUpdate s3 (figtab_auditor_node retrieve llm s3)
  applyUpdate s4 (reporter_node llm s4)

/-- The fixed StudyType label set as the spec states it (Unknown is the
degraded-classifier sentinel). -/
def specStudyTypes : List String :=
  ["Randomized Clinical Trial", "Observational Study", "Systematic Review",
   "Meta-analysis", "Other", "Unknown"]

/-- Substring containment as a proposition, for report-content claims. -/
def ContainsSub (s pat : String) : Prop :=
  ∃ l r, s = l ++ pat ++ r

/-! Concrete fixtures for witnesses and counterexamples. -/

/-- A guideline page as loaded from a statistics PDF. -/
def statDoc : Document :=
  ⟨"Report confidence intervals.", "stat_reporting_guidelines.pdf", "statistics"⟩

/-- A guideline page as loaded from a figures/tables PDF. -/
def figDoc : Document :=
  ⟨"Label all axes.", "figures_and_tables.pdf", "figures_tables"⟩

/-- A two-category loaded corpus. -/
def guidelineCorpus : List Document := [statDoc, figDoc]

/-- A splitter stub returning the page as a single chunk. -/
def splitText0 : String → List String := fun s => [s]

/-- A constant similarity score. -/
def sim0 : String → Document → Nat := fun _ _ => 0

/-- A retriever stub that always succeeds with one statistics chunk. -/
def okRetriever : Retriever := fun _ _ _ => .ok [statDoc]

/-- A retriever stub that always raises. -/
def failRetriever : Retriever := fun _ _ _ => .error "boom"

/-- A backend stub with constant responses. -/
def constBackend : LLMBackend where
  classifyResp := fun _ => "Randomized Clinical Trial"
  statsResp := fun _ _ => "STATS-FINDING"
  figtabResp := fun _ _ => "FIGTAB-FINDING"
  causalityResp := fun _ _ => "CAUSALITY-FINDING"
  srmaResp := fun _ _ _ => "SRMA-FINDING"
  reportResp := fun _ _ => "FULL-REPORT"

/-- A backend stub whose compliance responses echo the manuscript
excerpt they were handed, exposing each stage's excerpt policy. -/
def echoBackend : LLMBackend where
  classifyResp := fun s => s
  statsResp := fun _ paper => paper
  figtabResp := fun _ paper => paper
  causalityResp := fun _ paper => paper
  srmaResp := fun _ paper _ => paper
  reportResp := fun _ logs => logs

/-- A backend stub whose synthesis response is empty. -/
def emptyReportBackend : LLMBackend :=
  { constBackend with reportResp := fun _ _ => "" }

/-- A backend stub classifying outside the fixed StudyType set. -/
def bananaBackend : LLMBackend :=
  { constBackend with classifyResp := fun _ => " Banana " }

/-- The initial state `app.py` builds for a manuscript text. -/
def initState (text : String) : AgentState :=
  ⟨text, some "", [], some ""⟩

/-- A mid-run state classified as an observational study. -/
def obsState : AgentState :=
  ⟨"MANUSCRIPT BODY", some "Observational Study", [], none⟩

/-- A mid-run state classified as a randomized clinical trial. -/
def rctState : AgentState :=
  ⟨"MANUSCRIPT BODY", some "Randomized Clinical Trial", [], none⟩

/-- A mid-run state classified as a systematic review. -/
def srState : AgentState :=
  ⟨"MANUSCRIPT BODY", some "Systematic Review", [], none⟩

/-- The four diagnostic findings a backend-less run accumulates (one per
node before the reporter). -/
def degradedLogs : List String :=
  ["LLM not initialized.", "*Error: LLM not initialized.*",
   "*Error: LLM not initialized.*", "*Error: LLM not initialized.*"]

/-- The joined findings a backend-less run hands the reporter. -/
def degradedLogsText (s0 : AgentState) : String :=
  String.intercalate "\n\n" (s0.audit_logs ++ degradedLogs)

/-- The fallback report a backend-less run produces (see
`reporter_node`, with the classifier having set the type to Unknown). -/
def degradedFallback (s0 : AgentState) : String :=
  "🇪🇺 European Urology Statistical Report\n" ++
  ("Detected Type: " ++ "Unknown" ++ "\n\n") ++
  "LLM not initialized – showing raw logs:\n\n" ++
  degradedLogsText s0

/-! Shared helper lemmas. -/

/-- The merge applied by the orchestrator appends the update's logs. -/
theorem applyUpdate_audit_logs (s : AgentState) (u : StateUpdate) :
    (applyUpdate s u).audit_logs = s.audit_logs ++ u.audit_logs := rfl

/-- The classifier appends exactly one log entry. -/
theorem classifier_node_logs_length (llm : Option LLMBackend) (s : AgentState) :
    (classifier_node llm s).audit_logs.length = 1 := by
  cases llm <;> rfl

/-- The statistics stage appends exactly one log entry. -/
theorem stats_auditor_node_logs_length (retrieve : Retriever) (llm : Option LLMBackend)
    (s : AgentState) :
    (stats_auditor_node retrieve llm s).audit_logs.length = 1 := by
  cases llm with
  | none => rfl
  | some o =>
    simp only [stats_auditor_node]
    cases retrieve "statistics" statsQuery 5 <;> rfl

/-- The figures/tables stage appends exactly one log entry. -/
theorem figtab_auditor_node_logs_length (retrieve : Retriever) (llm : Option LLMBackend)
    (s : AgentState) :
    (figtab_auditor_node retrieve llm s).audit_logs.length = 1 := by
  cases llm with
  | none => rfl
  | some o =>
    simp only [figtab_auditor_node]
    cases retrieve "figures_tables" figtabQuery 5 <;> rfl

/-- The type-specific stage appends exactly one log entry. -/
theorem type_specific_auditor_node_logs_length (retrieve : Retriever)
    (llm : Option LLMBackend) (s : AgentState) :
    (type_specific_auditor_node retrieve llm s).audit_logs.length = 1 := by
  cases llm with
  | none => rfl
  | some o =>
    simp only [type_specific_auditor_node]
    split
    · cases retrieve "causality" causalityQuery 5 <;> rfl
    · split
      · cases retrieve "systematic_meta" srmaQuery 5 <;> rfl
      · rfl

/-- The reporter appends no log entry. -/
theorem reporter_node_logs_length (llm : Option LLMBackend) (s : AgentState) :
    (reporter_node llm s).audit_logs.length = 0 := by
  cases llm <;> rfl

/-- The reporter's update carries an empty findings list. -/
theorem reporter_node_logs_nil (llm : Option LLMBackend) (s : AgentState) :
    (reporter_node llm s).audit_logs = [] := by
  cases llm <;> rfl

/-- A string starting with a non-empty literal is non-empty. -/
theorem str_append_ne_empty_left (a b : String) (h : a.data ≠ []) : a ++ b ≠ "" := by
  intro hab
  apply h
  have hd := congrArg String.data hab
  rw [String.data_append] at hd
  exact (List.append_eq_nil.mp hd).1

/-! Claim theorems. -/

/-- C6: `infer_guideline_type` is a pure function of the filename that
routes by case-insensitive substring tests in source order — causality,
then figure/table, then systematic/meta, then stat — defaulting to
"other". -/
theorem C6_infer_guideline_type_spec (filename : String) :
    (strContains (strToLower filename) "causality" = true →
      infer_guideline_type filename = "causality") ∧
    (strContains (strToLower filename) "causality" = false →
      (strContains (strToLower filename) "figure" = true ∨
        strContains (strToLower filename) "table" = true) →
      infer_guideline_type filename = "figures_tables") ∧
    (strContains (strToLower filename) "causality" = false →
      strContains (strToLower filename) "figure" = false →
      strContains (strToLower filename) "table" = false →
      (strContains (strToLower filename) "systematic" = true ∨
        strContains (strToLower filename) "meta" = true) →
      infer_guideline_type filename = "systematic_meta") ∧
    (strContains (strToLower filename) "causality" = false →
      strContains (strToLower filename) "figure" = false →
      strContains (strToLower filename) "table" = false →
      strContains (strToLower filename) "systematic" = false →
      strContains (strToLower filename) "meta" = false →
      strContains (strToLower filename) "stat" = true →
      infer_guideline_type filename = "statistics") ∧
    (strContains (strToLower filename) "causality" = false →
      strContains (strToLower filename) "figure" = false →
      strContains (strToLower filename) "table" = false →
      strContains (strToLower filename) "systematic" = false →
      strContains (strToLower filename) "meta" = false →
      strContains (strToLower filename) "stat" = false →
      infer_guideline_type filename = "other") := by
  refine ⟨?_, ?_, ?_, ?_, ?_⟩
  · intro h; simp [infer_guideline_type, h]
  · intro h1 h2
    rcases h2 with h | h <;> simp [infer_guideline_type, h1, h]
  · intro h1 h2 h3 h4
    rcases h4 with h | h <;> simp [infer_guideline_type, h1, h2, h3, h]
  · intro h1 h2 h3 h4 h5 h6
    simp [infer_guideline_type, h1, h2, h3, h4, h5, h6]
  · intro h1 h2 h3 h4 h5 h6
    simp [infer_guideline_type, h1, h2, h3, h4, h5, h6]

/-- Witness for C6 at a concrete statistics filename. -/
theorem C6_witness :
    infer_guideline_type "EU-Stat-Reporting-Guidelines.pdf" = "statistics" :=
  (C6_infer_guideline_type_spec "EU-Stat-Reporting-Guidelines.pdf").2.2.2.1
    (by decide) (by decide) (by decide) (by decide) (by decide) (by decide)

/-- C7: the orchestrator merge is append-only on the findings channel:
for every node, the merged state's `audit_logs` is the previous list
with the node's entries appended; no entry is removed or reordered. -/
theorem C7_audit_logs_append_only (retrieve : Retriever) (llm : Option LLMBackend)
    (s : AgentState) :
    (∀ u : StateUpdate, (applyUpdate s u).audit_logs = s.audit_logs ++ u.audit_logs) ∧
    (∃ t, (applyUpdate s (classifier_node llm s)).audit_logs = s.audit_logs ++ t) ∧
    (∃ t, (applyUpdate s (stats_auditor_node retrieve llm s)).audit_logs = s.audit_logs ++ t) ∧
    (∃ t, (applyUpdate s (type_specific_auditor_node retrieve llm s)).audit_logs
      = s.audit_logs ++ t) ∧
    (∃ t, (applyUpdate s (figtab_auditor_node retrieve llm s)).audit_logs = s.audit_logs ++ t) ∧
    (∃ t, (applyUpdate s (reporter_node llm s)).audit_logs = s.audit_logs ++ t) :=
  ⟨fun _ => rfl, ⟨_, rfl⟩, ⟨_, rfl⟩, ⟨_, rfl⟩, ⟨_, rfl⟩, ⟨_, rfl⟩⟩

/-- C9: `retrieve_guidelines_by_type` returns at most `k` chunks, all
carrying the requested guideline type, and fails when the corpus
filtered to that type is empty. -/
theorem C9_retrieve_guidelines_by_type_spec (splitText : String → List String)
    (sim : String → Document → Nat) (all_docs : List Document)
    (t query : String) (k : Nat) :
    (∀ l, retrieve_guidelines_by_type splitText sim all_docs t query k = .ok l →
      l.length ≤ k ∧ ∀ d ∈ l, d.guideline_type = t) ∧
    ((all_docs.filter (fun d => d.guideline_type == t)).isEmpty = true →
      ∃ e, retrieve_guidelines_by_type splitText sim all_docs t query k = .error e) := by
  constructor
  · intro l hl
    simp only [retrieve_guidelines_by_type] at hl
    split at hl
    · cases hl
    · injection hl with hl
      subst hl
      constructor
      · simp only [topK, List.length_take, List.length_mergeSort]
        omega
      · intro d hd
        simp only [topK] at hd
        have hd1 := List.mem_mergeSort.mp (List.mem_of_mem_take hd)
        simp only [split_docs, List.mem_flatten, List.mem_map] at hd1
        obtain ⟨L, ⟨d0, hd0, rfl⟩, hdL⟩ := hd1
        obtain ⟨c, _, rfl⟩ := List.mem_map.mp hdL
        exact eq_of_beq (List.mem_filter.mp hd0).2
  · intro hemp
    refine ⟨noDocsMsg t, ?_⟩
    simp only [retrieve_guidelines_by_type]
    rw [if_pos hemp]

/-- Witness for C9 at a concrete two-category corpus and k = 1. -/
theorem C9_witness :
    ([statDoc].length ≤ 1 ∧ ∀ d ∈ [statDoc], d.guideline_type = "statistics") :=
  (C9_retrieve_guidelines_by_type_spec splitText0 sim0 guidelineCorpus
    "statistics" "precision" 1).1 [statDoc]
    (by simp [retrieve_guidelines_by_type, guidelineCorpus, statDoc, figDoc,
      split_docs, splitText0, topK])

/-- C4: the type-specific stage routes by case-insensitive substring
match on paper_type: containing "observational" → the causality check;
otherwise containing "systematic review", "meta-analysis" or
"meta analysis" → the SR/MA check; every other value → the neutral
no-additional-check finding. -/
theorem C4_type_specific_routing (retrieve : Retriever) (o : LLMBackend)
    (s : AgentState) :
    (strContains (strToLower (s.paper_type.getD "")) "observational" = true →
      type_specific_auditor_node retrieve (some o) s =
        match retrieve "causality" causalityQuery 5 with
        | .error e =>
          { audit_logs :=
              ["### Causality / Observational Study Check\nCould not load causality guidelines: "
                ++ e] }
        | .ok docs =>
          { audit_logs := [o.causalityResp (joinRules docs) s.paper_content] }) ∧
    (strContains (strToLower (s.paper_type.getD "")) "observational" = false →
      (strContains (strToLower (s.paper_type.getD "")) "systematic review" ||
        strContains (strToLower (s.paper_type.getD "")) "meta-analysis" ||
        strContains (strToLower (s.paper_type.getD "")) "meta analysis") = true →
      type_specific_auditor_node retrieve (some o) s =
        match retrieve "systematic_meta" srmaQuery 5 with
        | .error e =>
          { audit_logs :=
              ["### Systematic Review / Meta-analysis Check\nCould not load SR/MA guidelines: "
                ++ e] }
        | .ok docs =>
          { audit_logs :=
              [o.srmaResp (joinRules docs) s.paper_content (s.paper_type.getD "")] }) ∧
    (strContains (strToLower (s.paper_type.getD "")) "observational" = false →
      (strContains (strToLower (s.paper_type.getD "")) "systematic review" ||
        strContains (strToLower (s.paper_type.getD "")) "meta-analysis" ||
        strContains (strToLower (s.paper_type.getD "")) "meta analysis") = false →
      type_specific_auditor_node retrieve (some o) s =
        { audit_logs := [neutralFinding] }) := by
  refine ⟨?_, ?_, ?_⟩
  · intro h
    simp only [type_specific_auditor_node, h, if_true]
  · intro h1 h2
    simp only [type_specific_auditor_node, h1, h2, Bool.false_eq_true, if_false, if_true]
  · intro h1 h2
    simp only [type_specific_auditor_node, h1, h2, Bool.false_eq_true, if_false]

/-- Witness for C4: a randomized clinical trial routes to neither
type-specific check and yields the neutral finding. -/
theorem C4_witness :
    type_specific_auditor_node okRetriever (some constBackend) rctState =
      { audit_logs := [neutralFinding] } :=
  (C4_type_specific_routing okRetriever constBackend rctState).2.2
    (by decide) (by decide)

/-- C10: when paper_type is absent (or Python `None`) or the empty
string, the guard normalizes it to "", no routing substring matches, and
the type-specific stage returns the neutral finding. -/
theorem C10_missing_paper_type_neutral (retrieve : Retriever) (o : LLMBackend)
    (s : AgentState) (h : s.paper_type = none ∨ s.paper_type = some "") :
    type_specific_auditor_node retrieve (some o) s =
      { audit_logs := [neutralFinding] } := by
  have h1 : strContains (strToLower "") "observational" = false := by decide
  have h2 : strContains (strToLower "") "systematic review" = false := by decide
  have h3 : strContains (strToLower "") "meta-analysis" = false := by decide
  have h4 : strContains (strToLower "") "meta analysis" = false := by decide
  rcases h with h | h <;>
    simp [type_specific_auditor_node, h, h1, h2, h3, h4]

/-- Witness for C10 at a state with no paper_type key. -/
theorem C10_witness :
    type_specific_auditor_node okRetriever (some constBackend)
      ⟨"Example manuscript text.", none, [], none⟩ =
      { audit_logs := [neutralFinding] } :=
  C10_missing_paper_type_neutral okRetriever constBackend
    ⟨"Example manuscript text.", none, [], none⟩ (Or.inl rfl)

/-- C8: when guideline retrieval fails, each compliance stage catches
the failure, degrades to a single diagnostic finding, and an update
carrying only logs leaves every other state field unchanged, so the
pipeline proceeds. -/
theorem C8_retrieval_failure_degrades (retrieve : Retriever) (o : LLMBackend)
    (s : AgentState) (e : String) :
    (retrieve "statistics" statsQuery 5 = .error e →
      stats_auditor_node retrieve (some o) s =
        { audit_logs :=
            ["### Statistical Reporting Check\nCould not load statistics guidelines: " ++ e] }) ∧
    (retrieve "figures_tables" figtabQuery 5 = .error e →
      figtab_auditor_node retrieve (some o) s =
        { audit_logs :=
            ["### Figures and Tables Check\nCould not load figures/tables guidelines: " ++ e] }) ∧
    (strContains (strToLower (s.paper_type.getD "")) "observational" = true →
      retrieve "causality" causalityQuery 5 = .error e →
      type_specific_auditor_node retrieve (some o) s =
        { audit_logs :=
            ["### Causality / Observational Study Check\nCould not load causality guidelines: "
              ++ e] }) ∧
    (strContains (strToLower (s.paper_type.getD "")) "observational" = false →
      (strContains (strToLower (s.paper_type.getD "")) "systematic review" ||
        strContains (strToLower (s.paper_type.getD "")) "meta-analysis" ||
        strContains (strToLower (s.paper_type.getD "")) "meta analysis") = true →
      retrieve "systematic_meta" srmaQuery 5 = .error e →
      type_specific_auditor_node retrieve (some o) s =
        { audit_logs :=
            ["### Systematic Review / Meta-analysis Check\nCould not load SR/MA guidelines: "
              ++ e] }) ∧
    (∀ logs, applyUpdate s { audit_logs := logs } =
      { s with audit_logs := s.audit_logs ++ logs }) := by
  refine ⟨?_, ?_, ?_, ?_, fun _ => rfl⟩
  · intro h
    simp only [stats_auditor_node, h]
  · intro h
    simp only [figtab_auditor_node, h]
  · intro h1 h2
    simp only [type_specific_auditor_node, h1, if_true, h2]
  · intro h1 h2 h3
    simp only [type_specific_auditor_node, h1, h2, h3, Bool.false_eq_true, if_false, if_true]

/-- Witness for C8 with a retriever that always raises "boom". -/
theorem C8_witness :
    stats_auditor_node failRetriever (some constBackend) obsState =
      { audit_logs :=
          ["### Statistical Reporting Check\nCould not load statistics guidelines: " ++ "boom"] } :=
  (C8_retrieval_failure_degrades failRetriever constBackend obsState "boom").1 rfl

/-- C2 (amended): the classifier stores the stripped backend response
verbatim as paper_type — responses outside the fixed StudyType set
included — and stores "Unknown" when the backend is unavailable; no
normalization to "Other" is applied. -/
theorem C2_classifier_stores_verbatim (o : LLMBackend) (s : AgentState) :
    (classifier_node (some o) s).paper_type
      = some (strStrip (o.classifyResp (strTake s.paper_content 4000))) ∧
    (classifier_node none s).paper_type = some "Unknown" :=
  ⟨rfl, rfl⟩

/-- C2 counterexample: a backend response " Banana " is stored as
"Banana", which is neither a member of the fixed StudyType set nor
"Other" — out-of-set outputs are not mapped to "Other". -/
theorem C2_counterexample :
    (classifier_node (some bananaBackend)
        (initState "Example manuscript text.")).paper_type = some "Banana" ∧
    "Banana" ∉ specStudyTypes ∧ "Banana" ≠ "Other" := by
  refine ⟨by decide, by decide, by decide⟩

/-- C3 counterexample: a complete run starting from `app.py`'s initial
state accumulates 4 findings, not the claimed N+2 = 5 — the synthesis
stage appends no finding. -/
theorem C3_counterexample :
    (runPipeline okRetriever (some constBackend)
        (initState "Example manuscript text.")).audit_logs.length = 4 ∧
    (4 : Nat) ≠ 5 := by
  refine ⟨?_, by decide⟩
  simp only [runPipeline, applyUpdate_audit_logs, List.length_append,
    classifier_node_logs_length, stats_auditor_node_logs_length,
    type_specific_auditor_node_logs_length, figtab_auditor_node_logs_length,
    reporter_node_logs_length, initState, List.length_nil]

/-- C3 (amended): a complete run appends exactly N+1 = 4 findings — one
from the classifier and one per compliance stage, merged in
stage-invocation order; the synthesis stage appends none. -/
theorem C3_amended_findings_count (retrieve : Retriever) (llm : Option LLMBackend)
    (s0 : AgentState) :
    (runPipeline retrieve llm s0).audit_logs.length = s0.audit_logs.length + 4 ∧
    (∀ s, (classifier_node llm s).audit_logs.length = 1) ∧
    (∀ s, (stats_auditor_node retrieve llm s).audit_logs.length = 1) ∧
    (∀ s, (type_specific_auditor_node retrieve llm s).audit_logs.length = 1) ∧
    (∀ s, (figtab_auditor_node retrieve llm s).audit_logs.length = 1) ∧
    (∀ s, (reporter_node llm s).audit_logs = []) ∧
    (let s1 := applyUpdate s0 (classifier_node llm s0)
     let s2 := applyUpdate s1 (stats_auditor_node retrieve llm s1)
     let s3 := applyUpdate s2 (type_specific_auditor_node retrieve llm s2)
     (runPipeline retrieve llm s0).audit_logs =
       s0.audit_logs ++ (classifier_node llm s0).audit_logs ++
       (stats_auditor_node retrieve llm s1).audit_logs ++
       (type_specific_auditor_node retrieve llm s2).audit_logs ++
       (figtab_auditor_node retrieve llm s3).audit_logs) := by
  refine ⟨?_, classifier_node_logs_length llm, stats_auditor_node_logs_length retrieve llm,
    type_specific_auditor_node_logs_length retrieve llm,
    figtab_auditor_node_logs_length retrieve llm, reporter_node_logs_nil llm, ?_⟩
  · simp only [runPipeline, applyUpdate_audit_logs, List.length_append,
      classifier_node_logs_length, stats_auditor_node_logs_length,
      type_specific_auditor_node_logs_length, figtab_auditor_node_logs_length,
      reporter_node_logs_length]
  · simp only [runPipeline, applyUpdate_audit_logs, reporter_node_logs_nil,
      List.append_nil, List.append_assoc]

/-- Witness for C3 at a concrete run. -/
theorem C3_witness :
    (runPipeline failRetriever (some constBackend)
        (initState "Another manuscript.")).audit_logs.length =
      (initState "Another manuscript.").audit_logs.length + 4 :=
  (C3_amended_findings_count failRetriever (some constBackend)
    (initState "Another manuscript.")).1

/-- C5 counterexample: with a backend that echoes back the manuscript
excerpt it was handed, the statistics, figures/tables and type-specific
stages all record the very same excerpt — the full manuscript text — so
the three stages do receive the same excerpt, and no terminal-budget or
centered-window policy exists. -/
theorem C5_counterexample :
    (stats_auditor_node okRetriever (some echoBackend) obsState).audit_logs
        = [obsState.paper_content] ∧
    (figtab_auditor_node okRetriever (some echoBackend) obsState).audit_logs
        = [obsState.paper_content] ∧
    (type_specific_auditor_node okRetriever (some echoBackend) obsState).audit_logs
        = [obsState.paper_content] ∧
    (type_specific_auditor_node okRetriever (some echoBackend) srState).audit_logs
        = [srState.paper_content] := by
  refine ⟨rfl, rfl, by decide, by decide⟩

/-- C5 (amended): every compliance stage hands the backend the full
manuscript text (there is no per-category excerpt policy); only the
classifier truncates its input, to the first 4000 characters. -/
theorem C5_amended_full_text_excerpts (retrieve : Retriever) (o : LLMBackend)
    (s : AgentState) (docs : List Document) :
    (retrieve "statistics" statsQuery 5 = .ok docs →
      stats_auditor_node retrieve (some o) s =
        { audit_logs := [o.statsResp (joinRules docs) s.paper_content] }) ∧
    (retrieve "figures_tables" figtabQuery 5 = .ok docs →
      figtab_auditor_node retrieve (some o) s =
        { audit_logs := [o.figtabResp (joinRules docs) s.paper_content] }) ∧
    (strContains (strToLower (s.paper_type.getD "")) "observational" = true →
      retrieve "causality" causalityQuery 5 = .ok docs →
      type_specific_auditor_node retrieve (some o) s =
        { audit_logs := [o.causalityResp (joinRules docs) s.paper_content] }) ∧
    (strContains (strToLower (s.paper_type.getD "")) "observational" = false →
      (strContains (strToLower (s.paper_type.getD "")) "systematic review" ||
        strContains (strToLower (s.paper_type.getD "")) "meta-analysis" ||
        strContains (strToLower (s.paper_type.getD "")) "meta analysis") = true →
      retrieve "systematic_meta" srmaQuery 5 = .ok docs →
      type_specific_auditor_node retrieve (some o) s =
        { audit_logs :=
            [o.srmaResp (joinRules docs) s.paper_content (s.paper_type.getD "")] }) ∧
    (classifier_node (some o) s).paper_type
      = some (strStrip (o.classifyResp (strTake s.paper_content 4000))) := by
  refine ⟨?_, ?_, ?_, ?_, rfl⟩
  · intro h
    simp only [stats_auditor_node, h]
  · intro h
    simp only [figtab_auditor_node, h]
  · intro h1 h2
    simp only [type_specific_auditor_node, h1, if_true, h2]
  · intro h1 h2 h3
    simp only [type_specific_auditor_node, h1, h2, h3, Bool.false_eq_true, if_false, if_true]

/-- Witness for C5 at a successful concrete retrieval. -/
theorem C5_witness :
    stats_auditor_node okRetriever (some constBackend) rctState =
      { audit_logs := [constBackend.statsResp (joinRules [statDoc]) rctState.paper_content] } :=
  (C5_amended_full_text_excerpts okRetriever constBackend rctState [statDoc]).1 rfl

/-- C1 counterexample: with an available backend whose synthesis
response is the empty string, the pipeline terminates with
final_report = "" — the code stores the backend's response unchecked, so
the unconditional non-emptiness claim fails. -/
theorem C1_counterexample :
    (runPipeline okRetriever (some emptyReportBackend)
        (initState "Example manuscript text.")).final_report = some "" := rfl

/-- C1 (amended): the pipeline always terminates with final_report set:
with no backend it is the fallback report — non-empty, containing the
detected study type ("Unknown") and the joined accumulated findings;
with a backend it is exactly the backend's synthesis response, which is
non-empty exactly when that response is. -/
theorem C1_amended_report_always_set (retrieve : Retriever) (o : LLMBackend)
    (s0 : AgentState) :
    ((runPipeline retrieve none s0).final_report = some (degradedFallback s0) ∧
      degradedFallback s0 ≠ "" ∧
      ContainsSub (degradedFallback s0) "Unknown" ∧
      ContainsSub (degradedFallback s0) (degradedLogsText s0)) ∧
    (∃ pt logs, (runPipeline retrieve (some o) s0).final_report
        = some (o.reportResp pt logs)) := by
  refine ⟨⟨?_, ?_, ?_, ?_⟩, ⟨_, _, rfl⟩⟩
  · simp only [runPipeline, applyUpdate, classifier_node, stats_auditor_node,
      type_specific_auditor_node, figtab_auditor_node, reporter_node,
      degradedFallback, degradedLogsText, degradedLogs, Option.getD_some,
      List.append_assoc, List.cons_append, List.nil_append, List.singleton_append]
  · exact str_append_ne_empty_left _ _ (by decide)
  · refine ⟨"🇪🇺 European Urology Statistical Report\n" ++ "Detected Type: ",
      "\n\n" ++ ("LLM not initialized – showing raw logs:\n\n" ++ degradedLogsText s0), ?_⟩
    simp [degradedFallback, ← String.append_assoc]
  · refine ⟨"🇪🇺 European Urology Statistical Report\n" ++
      ("Detected Type: " ++ "Unknown" ++ "\n\n") ++
      "LLM not initialized – showing raw logs:\n\n", "", ?_⟩
    simp [degradedFallback, ← String.append_assoc]

/-- Witness for C1 at a concrete run with a live backend. -/
theorem C1_witness :
    ∃ pt logs, (runPipeline okRetriever (some constBackend)
        (initState "Example manuscript text.")).final_report
      = some (constBackend.reportResp pt logs) :=
  (C1_amended_report_always_set okRetriever constBackend
    (initState "Example manuscript text.")).2

end EuroUrol
